import Mathlib

/-!
Shallow embedding of the qutex crate (src/src/qutex.rs): a queue-backed
exclusive data lock.  The shared `Inner` state holds an atomic status word
(0 = unlocked, 1 = locked), the guarded value cell, and a FIFO queue of
lock requests.  Each request owns the sender half of a oneshot channel;
the map `alive : Nat → Bool` records, per channel id, whether the
receiver half is still alive, so that `tx.send(())` succeeds exactly on
alive channels.  The `fired` field of `Inner` is an observation log
recording, in order, the channel ids on which a notifier was fired.
-/

namespace Qutex

/-- A request to lock the qutex for exclusive access: it owns the sender
half of one oneshot channel, identified here by a numeric channel id
(mirrors `struct Request` in src/src/qutex.rs). -/
structure Request where
  tx : Nat
deriving DecidableEq, Repr

/-- The shared state behind the reference-counted pointer (mirrors
`struct Inner` in src/src/qutex.rs): `state` is the `AtomicUsize` status
word, `cell` the guarded value (specialized to `Int`, as the repository
tests use an integer payload), `queue` the `SegQueue<Request>` with the
head of the list as the front of the queue.  The extra `fired` field is a
ghost log of the channel ids granted so far, in grant order. -/
structure Inner where
  state : Nat
  cell : Int
  queue : List Request
  fired : List Nat
deriving DecidableEq, Repr

/-- Mirrors `Inner::from` / `Qutex::new` (src/src/qutex.rs lines 111-120,
133-138): status unlocked, given value, empty queue. -/
def Inner.new (v : Int) : Inner :=
  { state := 0, cell := v, queue := [], fired := [] }

/-- Result of `Qutex::process_queue` / `Qutex::unlock`: the Rust functions
return `Result<(), &'static str>` and can also panic on an invalid status
word. -/
inductive PqOutcome where
  | ok : PqOutcome
  | err : String → PqOutcome
  | panicked : String → PqOutcome
deriving DecidableEq, Repr

/-- Mirrors `Qutex::process_queue` (src/src/qutex.rs lines 194-210).  The
`compare_and_swap(0, 1, SeqCst)` is modelled by inspecting the status
word: on old value 0 the status becomes 1 and one pop is attempted; an
empty queue stores 0 back; a popped request fires its notifier when the
receiver is alive, and otherwise yields
`Err("Qutex queue has been dropped")`; old value 1 is a no-op `Ok`; any
other status panics. -/
def process_queue (alive : Nat → Bool) (s : Inner) : Inner × PqOutcome :=
  if s.state = 0 then
    match s.queue with
    | [] => ({ s with state := 0 }, PqOutcome.ok)
    | req :: rest =>
      if alive req.tx then
        ({ s with state := 1, queue := rest, fired := s.fired ++ [req.tx] },
          PqOutcome.ok)
      else
        ({ s with state := 1, queue := rest },
          PqOutcome.err "Qutex queue has been dropped")
  else if s.state = 1 then
    (s, PqOutcome.ok)
  else
    (s, PqOutcome.panicked "Qutex::process_queue: inner.state")

/-- Mirrors `Qutex::unlock` (src/src/qutex.rs lines 217-221): store 0 to
the status word, then call `process_queue`. -/
def unlock (alive : Nat → Bool) (s : Inner) : Inner × PqOutcome :=
  process_queue alive { s with state := 0 }

/-- Outcome of dropping a `Guard`: the destructor either returns or
panics (it calls `unlock().expect("Error dropping Guard")`). -/
inductive DropOutcome where
  | ok : DropOutcome
  | panicked : String → DropOutcome
deriving DecidableEq, Repr

/-- Mirrors `impl Drop for Guard` (src/src/qutex.rs lines 36-40): call
`unlock` and panic with the expect message if it returned an error. -/
def guardDrop (alive : Nat → Bool) (s : Inner) : Inner × DropOutcome :=
  match unlock alive s with
  | (s2, PqOutcome.ok) => (s2, DropOutcome.ok)
  | (s2, PqOutcome.err _) => (s2, DropOutcome.panicked "Error dropping Guard")
  | (s2, PqOutcome.panicked m) => (s2, DropOutcome.panicked m)

/-- Mirrors `Qutex::push_request` (src/src/qutex.rs lines 154-156): push
onto the back of the FIFO queue. -/
def push_request (s : Inner) (req : Request) : Inner :=
  { s with queue := s.queue ++ [req] }

/-- A `FutureGuard` (src/src/qutex.rs lines 44-47): it holds
`Option<Qutex<T>>` (the handle, here reduced to presence, since the
shared `Inner` is passed explicitly) and the receiver half of its oneshot
channel, identified by its channel id. -/
structure FutureGuard where
  lock : Option Unit
  rx : Nat
deriving DecidableEq, Repr

/-- Mirrors `Qutex::lock` (src/src/qutex.rs lines 142-146): create a
fresh oneshot channel (its id is supplied by the environment), push a
`Request` holding the sender half, and return a `FutureGuard` holding the
handle and the receiver half. -/
def lock (s : Inner) (txId : Nat) : Inner × FutureGuard :=
  (push_request s { tx := txId }, { lock := some (), rx := txId })

/-- Outcome of one `FutureGuard::poll` call (src/src/qutex.rs lines
65-87): resolve to a `Guard`, stay pending, resolve with
`Err(Canceled)`, or panic.  (`canceled` corresponds to the oneshot sender
being destroyed before firing; it is unreachable in this single-qutex
model, where the sender always sits in the queue or has fired, but it is
part of the Rust return type `Poll<Guard<T>, Canceled>`.) -/
inductive PollOutcome where
  | ready : PollOutcome
  | notReady : PollOutcome
  | canceled : PollOutcome
  | panicked : String → PollOutcome
deriving DecidableEq, Repr

/-- Mirrors `impl Future for FutureGuard` (src/src/qutex.rs lines 65-87):
if the handle was already consumed, panic; otherwise run
`process_queue` (panicking on its error, via the `expect`), then poll the
receiver: ready exactly when this future's notifier has fired, in which
case the handle is taken so that the future is completed. -/
def FutureGuard.poll (alive : Nat → Bool) (fg : FutureGuard) (s : Inner) :
    Inner × FutureGuard × PollOutcome :=
  match fg.lock with
  | none => (s, fg, PollOutcome.panicked "FutureGuard::poll: Task already completed.")
  | some _ =>
    match process_queue alive s with
    | (s2, PqOutcome.ok) =>
      if fg.rx ∈ s2.fired then
        (s2, { fg with lock := none }, PollOutcome.ready)
      else
        (s2, fg, PollOutcome.notReady)
    | (s2, PqOutcome.err _) =>
      (s2, fg, PollOutcome.panicked "Error polling FutureGuard")
    | (s2, PqOutcome.panicked m) => (s2, fg, PollOutcome.panicked m)

/-- Mirrors `impl DerefMut for Guard` (src/src/qutex.rs lines 30-34):
writing through a live guard stores to the cell of the shared state. -/
def guardWrite (s : Inner) (v : Int) : Inner :=
  { s with cell := v }

/-- Mirrors `impl Deref for Guard` (src/src/qutex.rs lines 22-28):
reading through a live guard reads the cell of the shared state. -/
def guardRead (s : Inner) : Int :=
  s.cell

/-- Mirrors `Qutex::get_mut` (src/src/qutex.rs lines 165-167), which is
`Arc::get_mut(&mut self.inner)` mapped over the cell: the standard
library returns a mutable reference exactly when the calling handle is
the only reference to the shared state, i.e. when the reference count is
1, and `None` otherwise.  The reference count of the `Arc` is passed
explicitly. -/
def get_mut (refcount : Nat) (s : Inner) : Option Int :=
  if refcount = 1 then some s.cell else none

/-- Mirrors `impl Clone for Qutex` (src/src/qutex.rs lines 231-238):
cloning a handle clones the `Arc`, increasing the reference count. -/
def cloneHandle (refcount : Nat) : Nat :=
  refcount + 1

/-- Dropping a handle drops its `Arc`, decreasing the reference count. -/
def dropHandle (refcount : Nat) : Nat :=
  refcount - 1

/-- Receiver-liveness map for executions in which no future is dropped
early: every oneshot receiver stays alive. -/
def allAlive : Nat → Bool :=
  fun _ => true

/-- One fully serialized round against the lock, with channel id `i`:
issue `lock()` (enqueue the request), poll the returned future once
(which grants it when the lock is free), and drop the resulting guard
(releasing the lock).  This is the round repeated by the sequential
clients of the FIFO property. -/
def seqRound (i : Nat) (s : Inner) : Inner :=
  match lock s i with
  | (s1, fg) =>
    match FutureGuard.poll allAlive fg s1 with
    | (s2, _, _) => (guardDrop allAlive s2).1

/-- Serialized clients with channel ids `ids`, in order: each client
completes its whole lock/poll/drop round before the next one starts. -/
def runSeqIds : List Nat → Inner → Inner
  | [], s => s
  | i :: is, s => runSeqIds is (seqRound i s)

/-- Scenario A of the spec, mirroring the `simple` test
(src/src/qutex.rs lines 247-271): construct with 999, acquire and read,
release, acquire and write 5, release, acquire and read again.  Returns
the first read, the final read, and the three poll outcomes. -/
def scenarioA : Int × Int × PollOutcome × PollOutcome × PollOutcome :=
  let s0 := Inner.new 999
  match lock s0 0 with
  | (s1, fg1) =>
    match FutureGuard.poll allAlive fg1 s1 with
    | (s2, _, o1) =>
      let read1 := guardRead s2
      let s3 := (guardDrop allAlive s2).1
      match lock s3 1 with
      | (s4, fg2) =>
        match FutureGuard.poll allAlive fg2 s4 with
        | (s5, _, o2) =>
          let s6 := (guardDrop allAlive (guardWrite s5 5)).1
          match lock s6 2 with
          | (s7, fg3) =>
            match FutureGuard.poll allAlive fg3 s7 with
            | (s8, _, o3) => (read1, guardRead s8, o1, o2, o3)

/-- Helper: one serialized round from a quiescent state (unlocked, empty
queue) grants exactly channel `i` and returns to the quiescent state. -/
theorem seqRound_quiescent (i : Nat) (s : Inner) (h0 : s.state = 0)
    (hq : s.queue = []) :
    seqRound i s = { s with fired := s.fired ++ [i] } := by
  obtain ⟨st, c, q, f⟩ := s
  simp only at h0 hq
  subst h0; subst hq
  simp [seqRound, lock, push_request, FutureGuard.poll, process_queue,
    allAlive, guardDrop, unlock]

/-- Helper: serialized clients with channel ids `ids`, started from a
quiescent state, are granted exactly in enqueue order and leave the lock
quiescent again. -/
theorem runSeqIds_quiescent (ids : List Nat) (s : Inner) (h0 : s.state = 0)
    (hq : s.queue = []) :
    runSeqIds ids s = { s with fired := s.fired ++ ids } := by
  induction ids generalizing s with
  | nil =>
    obtain ⟨st, c, q, f⟩ := s
    simp [runSeqIds]
  | cons i is ih =>
    rw [runSeqIds, seqRound_quiescent i s h0 hq,
      ih { s with fired := s.fired ++ [i] } h0 hq]
    simp

/-- C1: if the status is Unlocked (0) and the pending queue has a head
request whose receiver is alive, `process_queue` pops exactly that one
entry, fires its notifier, leaves the status Locked (1), and returns
`Ok`. -/
theorem process_queue_grants_head (alive : Nat → Bool) (s : Inner)
    (req : Request) (rest : List Request) (h0 : s.state = 0)
    (hq : s.queue = req :: rest) (ha : alive req.tx = true) :
    process_queue alive s =
      ({ s with state := 1, queue := rest, fired := s.fired ++ [req.tx] },
        PqOutcome.ok) := by
  obtain ⟨st, c, q, f⟩ := s
  simp only at h0 hq
  subst h0; subst hq
  simp [process_queue, ha]

/-- Witness for C1 at a concrete state with two queued requests. -/
theorem process_queue_grants_head_witness :
    process_queue (fun _ => true) ⟨0, 999, [⟨4⟩, ⟨7⟩], []⟩ =
      ({ state := 1, cell := 999, queue := [⟨7⟩], fired := [4] },
        PqOutcome.ok) :=
  process_queue_grants_head (fun _ => true) ⟨0, 999, [⟨4⟩, ⟨7⟩], []⟩
    ⟨4⟩ [⟨7⟩] rfl rfl rfl

/-- C2: if the status is Unlocked and the queue head's receiver has been
dropped, `process_queue` returns an error; only the head is popped (the
rest of the queue is untouched) and no notifier is fired. -/
theorem process_queue_dropped_head_errors (alive : Nat → Bool) (s : Inner)
    (req : Request) (rest : List Request) (h0 : s.state = 0)
    (hq : s.queue = req :: rest) (ha : alive req.tx = false) :
    process_queue alive s =
      ({ s with state := 1, queue := rest },
        PqOutcome.err "Qutex queue has been dropped") := by
  obtain ⟨st, c, q, f⟩ := s
  simp only at h0 hq
  subst h0; subst hq
  simp [process_queue, ha]

/-- Witness for C2: with a dropped head receiver and another queued
request behind it, the call errors, the second request stays queued and
nothing is fired. -/
theorem process_queue_dropped_head_errors_witness :
    process_queue (fun _ => false) ⟨0, 10, [⟨4⟩, ⟨7⟩], []⟩ =
      ({ state := 1, cell := 10, queue := [⟨7⟩], fired := [] },
        PqOutcome.err "Qutex queue has been dropped") :=
  process_queue_dropped_head_errors (fun _ => false) ⟨0, 10, [⟨4⟩, ⟨7⟩], []⟩
    ⟨4⟩ [⟨7⟩] rfl rfl rfl

/-- C3: `unlock` first stores Unlocked (0) into the status and then
invokes `process_queue` on the result; dropping a Guard performs exactly
this `unlock`, so every release performs one immediate acquire-attempt,
and in particular when a waiter with a live receiver is queued, the
release grants it before returning. -/
theorem unlock_is_store_then_process (alive : Nat → Bool) (s : Inner) :
    unlock alive s = process_queue alive { s with state := 0 } ∧
    (guardDrop alive s).1 = (unlock alive s).1 ∧
    (∀ req rest, s.queue = req :: rest → alive req.tx = true →
      unlock alive s =
        ({ s with state := 1, queue := rest, fired := s.fired ++ [req.tx] },
          PqOutcome.ok)) := by
  refine ⟨rfl, ?_, ?_⟩
  · unfold guardDrop
    rcases h : unlock alive s with ⟨s2, o⟩
    cases o <;> simp
  · intro req rest hq ha
    obtain ⟨st, c, q, f⟩ := s
    simp only at hq
    subst hq
    simp [unlock, process_queue, ha]

/-- Witness for C3: releasing while channel 9 waits with a live receiver
grants channel 9 immediately and leaves the lock Locked. -/
theorem unlock_is_store_then_process_witness :
    unlock (fun _ => true) ⟨1, 42, [⟨9⟩], []⟩ =
      ({ state := 1, cell := 42, queue := [], fired := [9] },
        PqOutcome.ok) :=
  (unlock_is_store_then_process (fun _ => true) ⟨1, 42, [⟨9⟩], []⟩).2.2
    ⟨9⟩ [] rfl rfl

/-- C4: strictly serialized clients (each guard dropped before the next
`lock()` is issued, no future dropped early) are granted in exactly
enqueue order: starting from any quiescent lock, the grant log extends by
the channel ids in exactly the order they were enqueued, and the lock is
quiescent again afterwards. -/
theorem fifo_serialized (ids : List Nat) (s : Inner) (h0 : s.state = 0)
    (hq : s.queue = []) :
    (runSeqIds ids s).fired = s.fired ++ ids ∧
    (runSeqIds ids s).state = 0 ∧ (runSeqIds ids s).queue = [] := by
  rw [runSeqIds_quiescent ids s h0 hq]
  exact ⟨rfl, h0, hq⟩

/-- Witness for C4: three serialized clients on a fresh lock are granted
in enqueue order 3, 1, 2. -/
theorem fifo_serialized_witness :
    (runSeqIds [3, 1, 2] (Inner.new 0)).fired = [3, 1, 2] :=
  (fifo_serialized [3, 1, 2] (Inner.new 0) rfl rfl).1

/-- C5: scenario A — construct with 999; the first acquisition reads
999; after writing 5 through the second guard and releasing, the third
acquisition reads 5; every poll resolves immediately. -/
theorem scenarioA_correct :
    scenarioA = (999, 5, PollOutcome.ready, PollOutcome.ready,
      PollOutcome.ready) := rfl

/-- C6: if the status is Unlocked and the queue is empty, `process_queue`
returns `Ok` and leaves the state exactly unchanged (the status is
reverted to Unlocked). -/
theorem process_queue_empty_noop (alive : Nat → Bool) (s : Inner)
    (h0 : s.state = 0) (hq : s.queue = []) :
    process_queue alive s = (s, PqOutcome.ok) := by
  obtain ⟨st, c, q, f⟩ := s
  simp only at h0 hq
  subst h0; subst hq
  simp [process_queue]

/-- Witness for C6 at a concrete unlocked, empty-queue state. -/
theorem process_queue_empty_noop_witness :
    process_queue (fun _ => true) ⟨0, 5, [], [2]⟩ =
      (⟨0, 5, [], [2]⟩, PqOutcome.ok) :=
  process_queue_empty_noop (fun _ => true) ⟨0, 5, [], [2]⟩ rfl rfl

/-- C7: `get_mut` yields a reference exactly when the reference count is
1 (no other handle exists); immediately after cloning a unique handle it
is unavailable, and after dropping that clone it is available again and
exposes the guarded value. -/
theorem get_mut_unique (refcount : Nat) (s : Inner) :
    ((get_mut refcount s).isSome = decide (refcount = 1)) ∧
    get_mut (cloneHandle 1) s = none ∧
    get_mut (dropHandle (cloneHandle 1)) s = some s.cell := by
  refine ⟨?_, rfl, rfl⟩
  by_cases h : refcount = 1 <;> simp [get_mut, h]

/-- C8: polling a `FutureGuard` that has already resolved (its handle was
consumed) panics rather than returning a recoverable error. -/
theorem poll_completed_panics (alive : Nat → Bool) (fg : FutureGuard)
    (s : Inner) (h : fg.lock = none) :
    FutureGuard.poll alive fg s =
      (s, fg, PollOutcome.panicked "FutureGuard::poll: Task already completed.") := by
  obtain ⟨l, rx⟩ := fg
  simp only at h
  subst h
  rfl

/-- Witness for C8 at a concrete completed future. -/
theorem poll_completed_panics_witness :
    FutureGuard.poll (fun _ => true) ⟨none, 0⟩ (Inner.new 7) =
      (Inner.new 7, ⟨none, 0⟩,
        PollOutcome.panicked "FutureGuard::poll: Task already completed.") :=
  poll_completed_panics (fun _ => true) ⟨none, 0⟩ (Inner.new 7) rfl

/-- C9: when `process_queue` pops a request whose receiver was dropped,
it returns the error and the status stays Locked (1): the error path does
not restore Unlocked even though no guard exists. -/
theorem process_queue_error_leaves_locked (alive : Nat → Bool) (s : Inner)
    (req : Request) (rest : List Request) (h0 : s.state = 0)
    (hq : s.queue = req :: rest) (ha : alive req.tx = false) :
    (process_queue alive s).1.state = 1 ∧
    (process_queue alive s).2 = PqOutcome.err "Qutex queue has been dropped" := by
  obtain ⟨st, c, q, f⟩ := s
  simp only at h0 hq
  subst h0; subst hq
  simp [process_queue, ha]

/-- Witness for C9 at a concrete state whose only queued receiver is
dropped. -/
theorem process_queue_error_leaves_locked_witness :
    (process_queue (fun _ => false) ⟨0, 3, [⟨6⟩], []⟩).1.state = 1 ∧
    (process_queue (fun _ => false) ⟨0, 3, [⟨6⟩], []⟩).2 =
      PqOutcome.err "Qutex queue has been dropped" :=
  process_queue_error_leaves_locked (fun _ => false) ⟨0, 3, [⟨6⟩], []⟩
    ⟨6⟩ [] rfl rfl rfl

/-- C10: dropping a Guard panics whenever the chained `process_queue`
returns an error, in particular whenever the next queued request's future
was dropped before being granted: the destructor asserts that `unlock`
succeeds instead of surfacing the error. -/
theorem guard_drop_panics_on_error (alive : Nat → Bool) (s : Inner) :
    (∀ m, (unlock alive s).2 = PqOutcome.err m →
      (guardDrop alive s).2 = DropOutcome.panicked "Error dropping Guard") ∧
    (∀ req rest, s.queue = req :: rest → alive req.tx = false →
      (guardDrop alive s).2 = DropOutcome.panicked "Error dropping Guard") := by
  constructor
  · intro m hm
    unfold guardDrop
    rcases h : unlock alive s with ⟨s2, o⟩
    rw [h] at hm
    cases o <;> simp_all
  · intro req rest hq ha
    obtain ⟨st, c, q, f⟩ := s
    simp only at hq
    subst hq
    simp [guardDrop, unlock, process_queue, ha]

/-- Witness for C10: dropping the guard while the next queued future was
already dropped panics the destructor. -/
theorem guard_drop_panics_on_error_witness :
    (guardDrop (fun _ => false) ⟨1, 0, [⟨11⟩], []⟩).2 =
      DropOutcome.panicked "Error dropping Guard" :=
  (guard_drop_panics_on_error (fun _ => false) ⟨1, 0, [⟨11⟩], []⟩).2
    ⟨11⟩ [] rfl rfl

end Qutex
